import Mathlib

/-!
Verification of the Thoth-Oracle arbitrage pipeline against its
natural-language specification.

This file shallowly embeds the components the claims are about:

* `RiskManagementAgent.assess_trade_risk` and
  `RiskManagementAgent.update_position`
  (src/agents/risk_management_agent/risk_management_agent.py),
* `XRPLAMMAgent.execute_trade_with_retry`
  (src/agents/xrpl_amm_agent/xrpl_amm_agent.py),
* `FlashLoanTradingAgent.monitor_opportunities` /
  `execute_flash_loan_trade` (src/agents/flash_loan_trader.py),
* `ArbitrageTrader.check_direct_arbitrage` and
  `ArbitrageTrader.check_triangular_arbitrage`
  (src/examples/live_arbitrage_test.py).

Python `Decimal` values are embedded as exact rationals (`ℚ`); every test
value in the claims is exactly representable.  The random market score
drawn by `get_market_risk_score` (`0.3 + np.random.random() * 0.4`, a
value in `[0.3, 0.7)`) is made an explicit argument, and the broad
`try/except` of `assess_trade_risk` is made an explicit `internalError`
flag routing to the `except` branch's result.
-/

namespace ThothOracle

/-! ## Risk Management Agent

Embedding of `RiskManagementAgent` from
src/agents/risk_management_agent/risk_management_agent.py. -/

/-- The static limits set in `RiskManagementAgent.__init__` (lines 14-23):
`max_position_size = 10000`, `max_daily_loss = 1000`,
`min_profit_threshold = 0.01`, `max_slippage = 0.005`. -/
structure RiskLimits where
  max_position_size : ℚ
  max_daily_loss : ℚ
  min_profit_threshold : ℚ
  max_slippage : ℚ
deriving DecidableEq

def defaultLimits : RiskLimits :=
  { max_position_size := 10000
    max_daily_loss := 1000
    min_profit_threshold := 1/100
    max_slippage := 1/200 }

/-- The dictionary returned by `assess_trade_risk`.  Keys that are absent
in a given branch of the Python code are `none` here: the three
rejection branches and the `except` branch carry a `reason` and no
sub-scores, the approval branch carries the sub-scores and no reason. -/
structure RiskResult where
  risk_score : ℚ
  allowed : Bool
  reason : Option String
  size_score : Option ℚ
  profit_score : Option ℚ
  market_score : Option ℚ
deriving DecidableEq

/-- `RiskManagementAgent.assess_trade_risk` (lines 25-83).  Arguments:
the current `self.daily_pnl`, the trade's `size` and `expected_profit`,
the market score `m` sampled by `get_market_risk_score`, and an
`internalError` flag standing for an exception reaching the
`except Exception` handler (which returns `risk_score = 1.0`,
`allowed = False`).  The `pair` argument of the source only feeds
`get_market_risk_score`, which ignores it. -/
def assess_trade_risk (limits : RiskLimits) (daily_pnl size expected_profit m : ℚ)
    (internalError : Bool) : RiskResult :=
  if internalError then
    { risk_score := 1, allowed := false,
      reason := some "Error in risk assessment",
      size_score := none, profit_score := none, market_score := none }
  else if size > limits.max_position_size then
    { risk_score := 1, allowed := false,
      reason := some "Position size exceeds maximum",
      size_score := none, profit_score := none, market_score := none }
  else if daily_pnl - size < -limits.max_daily_loss then
    { risk_score := 1, allowed := false,
      reason := some "Would exceed daily loss limit",
      size_score := none, profit_score := none, market_score := none }
  else if expected_profit < limits.min_profit_threshold then
    { risk_score := 9/10, allowed := false,
      reason := some "Expected profit below threshold",
      size_score := none, profit_score := none, market_score := none }
  else
    let size_score := size / limits.max_position_size
    let profit_score := limits.min_profit_threshold / expected_profit
    let risk_score := 4/10 * size_score + 3/10 * profit_score + 3/10 * m
    { risk_score := risk_score
      allowed := decide (risk_score < 7/10)
      reason := none
      size_score := some size_score
      profit_score := some profit_score
      market_score := some m }

/-- A market score value is one that `get_market_risk_score` (lines 85-97)
can produce: `0.3 + random() * 0.4 ∈ [0.3, 0.7)`, or the conservative
default `0.7` from its own `except` branch. -/
def marketScoreRange (m : ℚ) : Prop := 3/10 ≤ m ∧ m ≤ 7/10

instance (m : ℚ) : Decidable (marketScoreRange m) := by
  unfold marketScoreRange; infer_instance

/-! ## Position ledger: `RiskManagementAgent.update_position`

Embedding of `update_position` (lines 99-130).  The method body is
`self.daily_pnl += profit_loss`, append the trade to
`self.trade_history`, and return the running metrics.  Note what the
source state (`__init__`, lines 14-23) does NOT contain: there is no
day-start timestamp, and `update_position` takes no clock argument, so
the state below is the complete mutable state the method touches. -/

structure Trade where
  pair : String
  size : ℚ
  pnl : ℚ
deriving DecidableEq

structure LedgerState where
  daily_pnl : ℚ
  trade_history : List Trade
deriving DecidableEq

/-- The ledger state set up by `__init__`: `daily_pnl = 0`, empty
history. -/
def initialLedger : LedgerState := { daily_pnl := 0, trade_history := [] }

/-- The metrics dictionary `update_position` returns. -/
structure PositionMetrics where
  daily_pnl : ℚ
  trade_count : ℕ
  avg_profit : ℚ
deriving DecidableEq

/-- `RiskManagementAgent.update_position` (lines 99-130): add
`profit_loss` to `daily_pnl`, append the trade, return updated state and
metrics.  No daily-reset logic exists in the source. -/
def update_position (st : LedgerState) (pair : String) (size pnl : ℚ) :
    LedgerState × PositionMetrics :=
  let daily := st.daily_pnl + pnl
  let hist := st.trade_history ++ [{ pair := pair, size := size, pnl := pnl }]
  ({ daily_pnl := daily, trade_history := hist },
   { daily_pnl := daily
     trade_count := hist.length
     avg_profit := (hist.map Trade.pnl).sum / (hist.length : ℚ) })

/-! ## Execution with retry: `XRPLAMMAgent.execute_trade_with_retry`

Embedding of `execute_trade_with_retry`
(src/agents/xrpl_amm_agent/xrpl_amm_agent.py, lines 133-206) with
`RETRY_CONFIG` from src/config/exchange_issuers.py.  The ledger
collaborator is abstracted as a function from the attempt index to what
that iteration of the loop observes. -/

/-- What one iteration of the retry loop observes from the collaborators:
`validate_issuer` fails (immediate return), `find_paths` returns `[]`
(the source raises `ValueError`, caught by its own `except`),
`execute_trade` succeeds (immediate return), `execute_trade` reports a
failure, or some other exception is raised. -/
inductive AttemptOutcome where
  | invalidIssuer (msg : String)
  | noPaths
  | tradeSuccess (txHash : String)
  | tradeFailure (err : String)
  | raised (msg : String)
deriving DecidableEq

structure RetryConfig where
  max_attempts : ℕ
  base_delay : ℚ
  max_delay : ℚ
  exponential_base : ℚ
deriving DecidableEq

/-- `RETRY_CONFIG` (src/config/exchange_issuers.py, lines 35-40):
`max_attempts = 3`, `base_delay = 1.0`, `max_delay = 5.0`,
`exponential_base = 2`. -/
def retryConfig : RetryConfig :=
  { max_attempts := 3, base_delay := 1, max_delay := 5, exponential_base := 2 }

/-- The observable outcome of `execute_trade_with_retry`:
the returned dictionary plus, for observability of the retry
behaviour, the number of completed (failed) loop iterations
`attemptsMade` and the list of backoff sleeps performed. -/
structure TradeCallResult where
  success : Bool
  error : Option String
  tx_hash : Option String
  attemptsMade : ℕ
  delays : List ℚ
deriving DecidableEq

/-- Python prints `None` for an unset `last_error` inside the f-string of
the terminal failure message. -/
def lastErrorString : Option String → String
  | none => "None"
  | some s => s

/-- The `while attempts < max_attempts` loop of
`execute_trade_with_retry`, recursing on the remaining iteration budget.
`attempts` is the source's loop counter; on the two immediate-return
paths (invalid issuer, trade success) the loop exits without sleeping or
incrementing, otherwise `last_error` is recorded, a backoff delay
`min(base_delay * exponential_base ^ attempts, max_delay)` is slept, and
the loop retries. -/
def retryLoop (cfg : RetryConfig) (env : ℕ → AttemptOutcome) :
    ℕ → ℕ → Option String → List ℚ → TradeCallResult
  | 0, attempts, lastError, delays =>
    { success := false
      error := some ("Max retry attempts reached. Last error: " ++ lastErrorString lastError)
      tx_hash := none, attemptsMade := attempts, delays := delays }
  | remaining + 1, attempts, _lastError, delays =>
    let delay := min (cfg.base_delay * cfg.exponential_base ^ attempts) cfg.max_delay
    match env attempts with
    | .invalidIssuer msg =>
      { success := false, error := some msg, tx_hash := none,
        attemptsMade := attempts, delays := delays }
    | .tradeSuccess h =>
      { success := true, error := none, tx_hash := some h,
        attemptsMade := attempts, delays := delays }
    | .noPaths =>
      retryLoop cfg env remaining (attempts + 1)
        (some "No valid payment paths found") (delays ++ [delay])
    | .tradeFailure e =>
      retryLoop cfg env remaining (attempts + 1) (some e) (delays ++ [delay])
    | .raised m =>
      retryLoop cfg env remaining (attempts + 1) (some m) (delays ++ [delay])

/-- `XRPLAMMAgent.execute_trade_with_retry` (lines 133-206): run the
retry loop with `RETRY_CONFIG`, starting from `attempts = 0`,
`last_error = None`. -/
def execute_trade_with_retry (env : ℕ → AttemptOutcome) : TradeCallResult :=
  retryLoop retryConfig env retryConfig.max_attempts 0 none []

/-! ## Flash-loan monitor: `FlashLoanTradingAgent`

Embedding of `execute_flash_loan_trade` and one pass of
`monitor_opportunities` (src/agents/flash_loan_trader.py).  The monitor
loop opens logs/arbitrage_opportunities.log, iterates over EVERY line,
JSON-decodes it (skipping malformed lines) and calls
`execute_flash_loan_trade` on each decoded opportunity; it keeps no
record of opportunities already traded. -/

/-- The `details` dictionary of a logged direct opportunity
(what `log_opportunity("direct", ...)` writes and
`execute_flash_loan_trade` reads). -/
structure OppDetails where
  pair : String
  base_currency : String
  quote_currency : String
  buy_exchange : String
  sell_exchange : String
  buy_rate : ℚ
  sell_rate : ℚ
  size : ℚ
  profit : ℚ
  profit_percentage : ℚ
deriving DecidableEq

/-- The opportunity fingerprint in the sense of the spec glossary: a
deterministic key identifying the same opportunity across detection
cycles (same pair and venues). -/
def fingerprint (o : OppDetails) : String :=
  o.pair ++ "@" ++ o.buy_exchange ++ "/" ++ o.sell_exchange

/-- `FLASH_LOAN_WALLET` configuration
(src/config/test_wallets.py, lines 19-25). -/
structure FlashLoanConfig where
  max_loan_size : ℚ
  min_profit_threshold : ℚ
  max_slippage : ℚ
  gas_buffer : ℚ
deriving DecidableEq

def flashLoanConfig : FlashLoanConfig :=
  { max_loan_size := 5000, min_profit_threshold := 1/125,
    max_slippage := 1/500, gas_buffer := 3/2 }

/-- The gate sequence of `execute_flash_loan_trade` (lines 53-91) up to
the flash-loan submission: profit-percentage threshold, loan
availability, profitability after fees.  Returns `true` exactly when the
call reaches `flash_loan_agent.execute_flash_loan` (a submission).
`loanAvailable` and `loanFee` abstract the flash-loan collaborator. -/
def submits_flash_loan (cfg : FlashLoanConfig) (loanAvailable : Bool) (loanFee : ℚ)
    (o : OppDetails) : Bool :=
  if o.profit_percentage < cfg.min_profit_threshold then false
  else if !loanAvailable then false
  else if o.profit ≤ loanFee * cfg.gas_buffer then false
  else true

/-- One line of logs/arbitrage_opportunities.log as the monitor sees it:
either JSON that fails to decode (skipped by the `except
json.JSONDecodeError: continue`) or a decoded opportunity. -/
inductive LogLine where
  | malformed (raw : String)
  | opp (o : OppDetails)

/-- One pass of `FlashLoanTradingAgent.monitor_opportunities`
(lines 129-159) over the opportunity log: for every line in file order,
decode it and run `execute_flash_loan_trade`; collect the fingerprints
of the opportunities that reach a flash-loan submission.  The source
keeps no per-fingerprint in-flight set, so nothing is filtered out. -/
def monitor_pass (cfg : FlashLoanConfig) (loanAvailable : Bool) (loanFee : ℚ)
    (lines : List LogLine) : List String :=
  lines.filterMap fun l =>
    match l with
    | .malformed _ => none
    | .opp o =>
      if submits_flash_loan cfg loanAvailable loanFee o then some (fingerprint o)
      else none

/-! ## Direct arbitrage detector: `ArbitrageTrader.check_direct_arbitrage`

Embedding of `check_direct_arbitrage`
(src/examples/live_arbitrage_test.py, lines 243-276) for one pair key.
The source takes the per-exchange quote list for the pair, picks
`best_buy = min(..., key=rate)` and `best_sell = max(..., key=rate)`,
sizes the trade by the buy quote only, and logs the opportunity when the
profit percentage exceeds `self.min_profit_threshold`. -/

/-- One entry of `rates_by_pair[pair_key]`: issuer plus the quoted rate
and `optimal_size`. -/
structure ExchangeRate where
  issuer : String
  rate : ℚ
  optimal_size : ℚ
deriving DecidableEq

/-- Python `min(xs, key=k)` on the non-empty list `x :: xs`: scan left,
replacing the current best only on a strictly smaller key, so the first
minimizer wins ties. -/
def pyMinBy {α : Type} (key : α → ℚ) (x : α) (xs : List α) : α :=
  xs.foldl (fun acc y => if key y < key acc then y else acc) x

/-- Python `max(xs, key=k)` on the non-empty list `x :: xs`: first
maximizer wins ties. -/
def pyMaxBy {α : Type} (key : α → ℚ) (x : α) (xs : List α) : α :=
  xs.foldl (fun acc y => if key y > key acc then y else acc) x

/-- The direct opportunity record logged by `check_direct_arbitrage`. -/
structure DirectOpp where
  buy_issuer : String
  sell_issuer : String
  buy_rate : ℚ
  sell_rate : ℚ
  size : ℚ
  profit : ℚ
  profit_percentage : ℚ
deriving DecidableEq

/-- `check_direct_arbitrage` for one pair (lines 243-276).  Runs only
when more than one exchange quotes the pair; `size` is
`best_buy.optimal_size` (the source reads the size from the buy quote
only); `profit = (sell_rate - buy_rate) * size`;
`profit_percentage = profit / (buy_rate * size) * 100`; the opportunity
is logged when `profit_percentage > threshold`
(`self.min_profit_threshold = 0.0008`). -/
def check_direct_arbitrage (threshold : ℚ) :
    List ExchangeRate → Option DirectOpp
  | q1 :: q2 :: rest =>
    let best_buy := pyMinBy ExchangeRate.rate q1 (q2 :: rest)
    let best_sell := pyMaxBy ExchangeRate.rate q1 (q2 :: rest)
    let buy_rate := best_buy.rate
    let sell_rate := best_sell.rate
    let size := best_buy.optimal_size
    let potential_profit := (sell_rate - buy_rate) * size
    let profit_percentage := potential_profit / (buy_rate * size) * 100
    if profit_percentage > threshold then
      some { buy_issuer := best_buy.issuer
             sell_issuer := best_sell.issuer
             buy_rate := buy_rate
             sell_rate := sell_rate
             size := size
             profit := potential_profit
             profit_percentage := profit_percentage }
    else none
  | _ => none

/-- `self.min_profit_threshold` of `ArbitrageTrader.__init__`
(line 73): `Decimal("0.0008")`. -/
def minProfitThreshold : ℚ := 1/1250

/-! ## Triangular detector: `ArbitrageTrader.check_triangular_arbitrage`

Embedding of the per-cycle simulation of `check_triangular_arbitrage`
(src/examples/live_arbitrage_test.py, lines 278-353), run when every leg
of the path has a quote on the exchange. -/

/-- The rate/size quote for one leg of a cycle. -/
structure LegQuote where
  rate : ℚ
  size : ℚ
deriving DecidableEq

/-- One leg of the simulation loop:
`slippage = min(self.max_slippage, current_size / rate_info["size"] * 0.001)`,
`effective_rate = rate * (1 - slippage)`, `current_size *= effective_rate`. -/
def apply_leg (max_slippage : ℚ) (current : ℚ) (leg : LegQuote) : ℚ :=
  let slippage := min max_slippage (current / leg.size * (1/1000))
  current * (leg.rate * (1 - slippage))

/-- The leg-by-leg fold of the simulation, starting from
`initial_size`. -/
def simulate_cycle (max_slippage start : ℚ) (legs : List LegQuote) : ℚ :=
  legs.foldl (apply_leg max_slippage) start

/-- The triangular opportunity metrics the source computes and logs. -/
structure TriOpp where
  initial_size : ℚ
  final_size : ℚ
  profit : ℚ
  profit_percentage : ℚ
deriving DecidableEq

/-- The per-cycle body of `check_triangular_arbitrage`:
`initial_size = 1000`, fold the legs, `profit = final - initial`,
`profit_percentage = profit / initial * 100`, log when it exceeds
`self.min_triangular_profit` (`0.0015`). -/
def check_triangular_cycle (min_triangular_profit max_slippage : ℚ)
    (legs : List LegQuote) : Option TriOpp :=
  let initial : ℚ := 1000
  let final := simulate_cycle max_slippage initial legs
  let profit := final - initial
  let pct := profit / initial * 100
  if pct > min_triangular_profit then
    some { initial_size := initial, final_size := final,
           profit := profit, profit_percentage := pct }
  else none

/-- `self.min_triangular_profit` of `ArbitrageTrader.__init__`
(line 74): `Decimal("0.0015")`. -/
def minTriangularProfit : ℚ := 3/2000

/-! ## Helper lemmas on the risk assessor -/

/-- Branch characterization of the returned risk score with the default
limits and no internal error. -/
lemma risk_score_eq (d s p m : ℚ) :
    (assess_trade_risk defaultLimits d s p m false).risk_score =
      if s > 10000 then 1
      else if d - s < -1000 then 1
      else if p < 1/100 then 9/10
      else 4/10 * (s / 10000) + 3/10 * ((1/100) / p) + 3/10 * m := by
  simp only [assess_trade_risk, defaultLimits, Bool.false_eq_true, if_false,
    apply_ite RiskResult.risk_score]

/-- Branch characterization of the returned reason with the default
limits and no internal error. -/
lemma risk_reason_eq (d s p m : ℚ) :
    (assess_trade_risk defaultLimits d s p m false).reason =
      if s > 10000 then some "Position size exceeds maximum"
      else if d - s < -1000 then some "Would exceed daily loss limit"
      else if p < 1/100 then some "Expected profit below threshold"
      else none := by
  simp only [assess_trade_risk, defaultLimits, Bool.false_eq_true, if_false,
    apply_ite RiskResult.reason]

/-- Branch characterization of the approval flag with the default limits
and no internal error. -/
lemma risk_allowed_eq (d s p m : ℚ) :
    (assess_trade_risk defaultLimits d s p m false).allowed =
      if s > 10000 then false
      else if d - s < -1000 then false
      else if p < 1/100 then false
      else decide (4/10 * (s / 10000) + 3/10 * ((1/100) / p) + 3/10 * m < 7/10) := by
  simp only [assess_trade_risk, defaultLimits, Bool.false_eq_true, if_false,
    apply_ite RiskResult.allowed]

/-- With the default limits, any returned risk score is at most `1`
whenever the market score is at most `0.7`. -/
lemma risk_score_le_one (d s p m : ℚ) (hm : m ≤ 7/10) :
    (assess_trade_risk defaultLimits d s p m false).risk_score ≤ 1 := by
  rw [risk_score_eq]
  split_ifs with h1 h2 h3
  · norm_num
  · norm_num
  · norm_num
  · have hp : (0:ℚ) < p := by linarith
    have hsz : s / 10000 ≤ 1 := by
      rw [div_le_one (by norm_num : (0:ℚ) < 10000)]; linarith
    have hpr : (1/100 : ℚ) / p ≤ 1 := by
      rw [div_le_one hp]; linarith
    linarith

/-! ## Claim C1: daily-loss circuit breaker -/

/-- C1, counterexample.  With the source limits (`max_daily_loss = 1000`)
and `daily_pnl = -1000.01`, an opportunity of size 100 and expected
profit 50 is indeed rejected, but the reason string is
"Would exceed daily loss limit", not the claimed
"daily loss limit reached": the claim is false as stated. -/
theorem C1_counterexample :
    (-100001/100 : ℚ) < -defaultLimits.max_daily_loss ∧
    (assess_trade_risk defaultLimits (-100001/100) 100 50 (1/2) false).allowed = false ∧
    (assess_trade_risk defaultLimits (-100001/100) 100 50 (1/2) false).reason =
      some "Would exceed daily loss limit" ∧
    (assess_trade_risk defaultLimits (-100001/100) 100 50 (1/2) false).reason ≠
      some "daily loss limit reached" := by
  refine ⟨by norm_num [defaultLimits], ?_, ?_, ?_⟩
  · rw [risk_allowed_eq]; norm_num
  · rw [risk_reason_eq]; norm_num
  · rw [risk_reason_eq]; norm_num; decide

/-- C1, amended.  While `daily_pnl < -max_daily_loss`, every opportunity
of non-negative size is rejected (`allowed = false`, `risk_score = 1`)
regardless of its expected profit; the reason is
"Would exceed daily loss limit" whenever the size is within the position
limit (and "Position size exceeds maximum" otherwise).  The source
condition is `daily_pnl - size < -max_daily_loss`: it subtracts the
trade's own size rather than reading the current daily PnL alone. -/
theorem C1_daily_loss_rejection (d s p m : ℚ) (hs : 0 ≤ s)
    (hd : d < -defaultLimits.max_daily_loss) :
    (assess_trade_risk defaultLimits d s p m false).allowed = false ∧
    (assess_trade_risk defaultLimits d s p m false).risk_score = 1 ∧
    (s ≤ defaultLimits.max_position_size →
      (assess_trade_risk defaultLimits d s p m false).reason =
        some "Would exceed daily loss limit") := by
  have hd0 : d < -1000 := by simpa [defaultLimits] using hd
  have hd1 : d - s < -1000 := by linarith
  refine ⟨?_, ?_, ?_⟩
  · rw [risk_allowed_eq]
    split_ifs with g1 g2 <;> first | rfl | exact absurd hd1 (by assumption)
  · rw [risk_score_eq]
    split_ifs with g1 g2 <;> first | rfl | exact absurd hd1 (by assumption)
  · intro hsl
    have hsl0 : s ≤ 10000 := by simpa [defaultLimits] using hsl
    rw [risk_reason_eq]
    split_ifs with g1 g2 <;> first | rfl | exact absurd hd1 (by assumption) | linarith

/-- C1, witness for the amended theorem at the spec's own example
(`daily_pnl = -1000.01`, a trade of size 100 and profit 50). -/
theorem C1_witness :
    (0 : ℚ) ≤ 100 ∧ (-100001/100 : ℚ) < -defaultLimits.max_daily_loss ∧
    ((assess_trade_risk defaultLimits (-100001/100) 100 50 (1/2) false).allowed = false ∧
     (assess_trade_risk defaultLimits (-100001/100) 100 50 (1/2) false).risk_score = 1 ∧
     ((100 : ℚ) ≤ defaultLimits.max_position_size →
       (assess_trade_risk defaultLimits (-100001/100) 100 50 (1/2) false).reason =
         some "Would exceed daily loss limit")) :=
  ⟨by norm_num, by norm_num [defaultLimits],
   C1_daily_loss_rejection (-100001/100) 100 50 (1/2) (by norm_num)
     (by norm_num [defaultLimits])⟩

/-! ## Claim C6: risk-score monotonicity -/

/-- C6, counterexample.  The risk score is not monotone non-increasing
in expected profit: with `daily_pnl = 9000`, `size = 10000` and market
score `0.7` (all within the source ranges), raising the expected profit
from 0.005 to 0.01 raises the score from 0.9 (profit-threshold
rejection) to 0.91 (computed branch). -/
theorem C6_counterexample :
    (1/200 : ℚ) < 1/100 ∧ marketScoreRange (7/10) ∧
    (assess_trade_risk defaultLimits 9000 10000 (1/200) (7/10) false).risk_score <
      (assess_trade_risk defaultLimits 9000 10000 (1/100) (7/10) false).risk_score := by
  refine ⟨by norm_num, by norm_num [marketScoreRange], ?_⟩
  rw [risk_score_eq, risk_score_eq]; norm_num

/-- C6, amended.  With the market score held fixed in its source range
`[0.3, 0.7]`, the risk score of `assess_trade_risk` is monotone
non-decreasing in size and non-decreasing in accumulated daily loss
across all branches, and non-increasing in expected profit provided the
smaller profit already meets the minimum profit threshold; across the
profit-threshold rejection boundary the monotonicity in profit fails
(see the counterexample). -/
theorem C6_risk_score_monotonicity :
    (∀ d p m s₁ s₂, marketScoreRange m → s₁ ≤ s₂ →
      (assess_trade_risk defaultLimits d s₁ p m false).risk_score ≤
        (assess_trade_risk defaultLimits d s₂ p m false).risk_score) ∧
    (∀ d s m p₁ p₂, defaultLimits.min_profit_threshold ≤ p₁ → p₁ ≤ p₂ →
      (assess_trade_risk defaultLimits d s p₂ m false).risk_score ≤
        (assess_trade_risk defaultLimits d s p₁ m false).risk_score) ∧
    (∀ s p m d₁ d₂, marketScoreRange m → d₂ ≤ d₁ →
      (assess_trade_risk defaultLimits d₁ s p m false).risk_score ≤
        (assess_trade_risk defaultLimits d₂ s p m false).risk_score) := by
  refine ⟨?_, ?_, ?_⟩
  · intro d p m s₁ s₂ hm hs
    obtain ⟨hm1, hm2⟩ := hm
    rw [risk_score_eq, risk_score_eq]
    split_ifs <;>
      first
      | linarith
      | · have hp : (0:ℚ) < p := by linarith
          have ha1 : s₁ / 10000 ≤ 1 := by
            rw [div_le_one (by norm_num : (0:ℚ) < 10000)]; linarith
          have hb : (1/100 : ℚ) / p ≤ 1 := by rw [div_le_one hp]; linarith
          have hab : s₁ / 10000 ≤ s₂ / 10000 := by gcongr
          linarith
  · intro d s m p₁ p₂ hp1 hp12
    have hp1' : (1/100 : ℚ) ≤ p₁ := by simpa [defaultLimits] using hp1
    rw [risk_score_eq, risk_score_eq]
    split_ifs <;>
      first
      | linarith
      | · have hp : (0:ℚ) < p₁ := by linarith
          have key : (1/100 : ℚ) / p₂ ≤ (1/100) / p₁ := by gcongr <;> linarith
          linarith
  · intro s p m d₁ d₂ hm h21
    obtain ⟨hm1, hm2⟩ := hm
    rw [risk_score_eq, risk_score_eq]
    split_ifs <;>
      first
      | linarith
      | · have hp : (0:ℚ) < p := by linarith
          have ha1 : s / 10000 ≤ 1 := by
            rw [div_le_one (by norm_num : (0:ℚ) < 10000)]; linarith
          have hb : (1/100 : ℚ) / p ≤ 1 := by rw [div_le_one hp]; linarith
          linarith

/-- C6, witness for the amended theorem at concrete inputs: sizes 100
against 200, profits 0.02 against 0.04, daily PnL 0 against -50, with
market score 0.5. -/
theorem C6_witness :
    (marketScoreRange (1/2) ∧ (100 : ℚ) ≤ 200 ∧
      (assess_trade_risk defaultLimits 0 100 (1/50) (1/2) false).risk_score ≤
        (assess_trade_risk defaultLimits 0 200 (1/50) (1/2) false).risk_score) ∧
    (defaultLimits.min_profit_threshold ≤ (1/50 : ℚ) ∧ (1/50 : ℚ) ≤ 1/25 ∧
      (assess_trade_risk defaultLimits 0 100 (1/25) (1/2) false).risk_score ≤
        (assess_trade_risk defaultLimits 0 100 (1/50) (1/2) false).risk_score) ∧
    ((-50 : ℚ) ≤ 0 ∧
      (assess_trade_risk defaultLimits 0 100 (1/50) (1/2) false).risk_score ≤
        (assess_trade_risk defaultLimits (-50) 100 (1/50) (1/2) false).risk_score) :=
  ⟨⟨by norm_num [marketScoreRange], by norm_num,
    C6_risk_score_monotonicity.1 0 (1/50) (1/2) 100 200
      (by norm_num [marketScoreRange]) (by norm_num)⟩,
   ⟨by norm_num [defaultLimits], by norm_num,
    C6_risk_score_monotonicity.2.1 0 100 (1/2) (1/50) (1/25)
      (by norm_num [defaultLimits]) (by norm_num)⟩,
   ⟨by norm_num,
    C6_risk_score_monotonicity.2.2 100 (1/50) (1/2) 0 (-50)
      (by norm_num [marketScoreRange]) (by norm_num)⟩⟩

/-! ## Claim C7: purity of the risk assessment -/

/-- C7, counterexample.  Two assessments of the same opportunity
(size 100, profit 0.02) in the same state (`daily_pnl = 0`, default
limits) return different results when `get_market_risk_score` draws
different random samples (0.3 and 0.7, both in its output range), so
the assessment is not a pure function of (opportunity, position
snapshot, static limits) alone. -/
theorem C7_counterexample :
    marketScoreRange (3/10) ∧ marketScoreRange (7/10) ∧
    assess_trade_risk defaultLimits 0 100 (1/50) (3/10) false ≠
      assess_trade_risk defaultLimits 0 100 (1/50) (7/10) false := by
  refine ⟨by norm_num [marketScoreRange], by norm_num [marketScoreRange], ?_⟩
  norm_num [assess_trade_risk, defaultLimits]

/-- C7, amended.  The assessment is a pure function of the opportunity,
the position snapshot, the static limits AND the sampled market risk
score; the three outright-rejection branches do not depend on the
sample, so any two samples give identical results whenever one of the
rejection conditions holds. -/
theorem C7_rejection_market_independent (d s p m₁ m₂ : ℚ)
    (h : s > defaultLimits.max_position_size ∨
      d - s < -defaultLimits.max_daily_loss ∨
      p < defaultLimits.min_profit_threshold) :
    assess_trade_risk defaultLimits d s p m₁ false =
      assess_trade_risk defaultLimits d s p m₂ false := by
  simp only [assess_trade_risk, Bool.false_eq_true, if_false]
  split_ifs with h1 h2 h3
  · rfl
  · rfl
  · rfl
  · exact absurd h (by
      push_neg
      exact ⟨le_of_not_lt h1, le_of_not_lt h2, le_of_not_lt h3⟩)

/-- C7, witness for the amended theorem: an oversized opportunity
(size 20000) is assessed identically under market samples 0.3 and
0.7. -/
theorem C7_witness :
    ((20000 : ℚ) > defaultLimits.max_position_size ∨
      (0 : ℚ) - 20000 < -defaultLimits.max_daily_loss ∨
      (5 : ℚ) < defaultLimits.min_profit_threshold) ∧
    assess_trade_risk defaultLimits 0 20000 5 (3/10) false =
      assess_trade_risk defaultLimits 0 20000 5 (7/10) false :=
  ⟨Or.inl (by norm_num [defaultLimits]),
   C7_rejection_market_independent 0 20000 5 (3/10) (7/10)
     (Or.inl (by norm_num [defaultLimits]))⟩

/-! ## Claim C10: the risk gate fails closed -/

/-- C10.  `assess_trade_risk` returns a result dictionary on every
branch (the embedding is a total function, mirroring the broad
`try/except` that catches any internal exception); when an internal
error occurs the result is `risk_score = 1.0`, `allowed = False` with an
error reason, and in every returned result `allowed = true` implies
`risk_score < 0.7`. -/
theorem C10_fails_closed (d s p m : ℚ) (err : Bool) :
    (err = true →
      assess_trade_risk defaultLimits d s p m err =
        { risk_score := 1, allowed := false,
          reason := some "Error in risk assessment",
          size_score := none, profit_score := none, market_score := none }) ∧
    ((assess_trade_risk defaultLimits d s p m err).allowed = true →
      (assess_trade_risk defaultLimits d s p m err).risk_score < 7/10) := by
  constructor
  · intro he; subst he; rfl
  · intro ha
    cases err with
    | true => simp [assess_trade_risk] at ha
    | false =>
      rw [risk_allowed_eq] at ha
      rw [risk_score_eq]
      split_ifs at ha ⊢ <;> simp_all

/-- C10, witness: the internal-error branch at a concrete input, and a
concrete approved assessment whose score is below 0.7. -/
theorem C10_witness :
    assess_trade_risk defaultLimits 0 100 (1/50) (3/10) true =
      { risk_score := 1, allowed := false,
        reason := some "Error in risk assessment",
        size_score := none, profit_score := none, market_score := none } ∧
    (assess_trade_risk defaultLimits 0 100 (1/50) (3/10) false).risk_score < 7/10 :=
  ⟨(C10_fails_closed 0 100 (1/50) (3/10) true).1 rfl,
   (C10_fails_closed 0 100 (1/50) (3/10) false).2 (by rw [risk_allowed_eq]; norm_num)⟩

/-! ## Claim C2: no daily reset exists in the position ledger -/

/-- C2, evidence for the code bug.  The spec requires `UpdatePosition`
to zero the daily counters once per 24-hour boundary, but
`update_position` takes no clock, the agent state holds no day-start
timestamp, and no reset code exists: two loss updates — however far
apart in time they occur — always accumulate (`-600` then `-600` gives
`daily_pnl = -1200`), and in general the updated `daily_pnl` is
unconditionally the old value plus the new profit/loss. -/
theorem C2_no_daily_reset :
    (update_position (update_position initialLedger "XRP/USD" 100 (-600)).1
        "XRP/USD" 100 (-600)).1.daily_pnl = -1200 ∧
    (update_position (update_position initialLedger "XRP/USD" 100 (-600)).1
        "XRP/USD" 100 (-600)).2.daily_pnl = -1200 ∧
    ∀ (st : LedgerState) (pair : String) (size pnl : ℚ),
      (update_position st pair size pnl).1.daily_pnl = st.daily_pnl + pnl := by
  refine ⟨?_, ?_, ?_⟩ <;> norm_num [update_position, initialLedger]

/-! ## Claim C3: a missing payment path is retried, not failed fast -/

/-- C3, counterexample.  When `find_paths` returns no paths on every
attempt (and the issuer is valid), `execute_trade_with_retry` does NOT
fail immediately: the raised `ValueError` is caught by the loop's own
`except`, and the call retries with backoff sleeps of 1, 2 and 4
seconds through all `max_attempts = 3` iterations before returning a
terminal max-retry failure. -/
theorem C3_counterexample :
    execute_trade_with_retry (fun _ => AttemptOutcome.noPaths) =
      { success := false
        error := some "Max retry attempts reached. Last error: No valid payment paths found"
        tx_hash := none, attemptsMade := 3, delays := [1, 2, 4] } ∧
    (execute_trade_with_retry (fun _ => AttemptOutcome.noPaths)).attemptsMade ≠ 0 := by
  constructor
  · show retryLoop retryConfig _ (2+1) 0 none [] = _
    rw [retryLoop]
    show retryLoop retryConfig _ (1+1) 1 _ _ = _
    rw [retryLoop]
    show retryLoop retryConfig _ (0+1) 2 _ _ = _
    rw [retryLoop]
    show retryLoop retryConfig _ 0 3 _ _ = _
    rw [retryLoop]
    norm_num [retryConfig, lastErrorString, min_def]
    rfl
  · show (retryLoop retryConfig _ (2+1) 0 none []).attemptsMade ≠ 0
    rw [retryLoop]
    show (retryLoop retryConfig _ (1+1) 1 _ _).attemptsMade ≠ 0
    rw [retryLoop]
    show (retryLoop retryConfig _ (0+1) 2 _ _).attemptsMade ≠ 0
    rw [retryLoop]
    show (retryLoop retryConfig _ 0 3 _ _).attemptsMade ≠ 0
    rw [retryLoop]
    norm_num

/-- C3, amended.  Only an invalid/unknown venue is a structural
rejection failed immediately without any retry; a missing payment path
is treated as a retryable fault: the coordinator retries it with
exponential backoff (`delay = min(base_delay * 2 ^ attempt, max_delay)`,
giving sleeps 1, 2, 4) up to `max_attempts = 3` total attempts and then
fails terminally carrying the last error. -/
theorem C3_no_path_is_retried :
    (∀ (env : ℕ → AttemptOutcome) (msg : String),
      env 0 = AttemptOutcome.invalidIssuer msg →
      execute_trade_with_retry env =
        { success := false, error := some msg,
          tx_hash := none, attemptsMade := 0, delays := [] }) ∧
    (∀ env : ℕ → AttemptOutcome, (∀ i, env i = AttemptOutcome.noPaths) →
      execute_trade_with_retry env =
        { success := false
          error := some "Max retry attempts reached. Last error: No valid payment paths found"
          tx_hash := none, attemptsMade := 3, delays := [1, 2, 4] }) := by
  constructor
  · intro env msg h
    show retryLoop retryConfig _ (2+1) 0 none [] = _
    rw [retryLoop, h]
  · intro env h
    show retryLoop retryConfig _ (2+1) 0 none [] = _
    rw [retryLoop, h 0]
    show retryLoop retryConfig _ (1+1) 1 _ _ = _
    rw [retryLoop, h 1]
    show retryLoop retryConfig _ (0+1) 2 _ _ = _
    rw [retryLoop, h 2]
    show retryLoop retryConfig _ 0 3 _ _ = _
    rw [retryLoop]
    norm_num [retryConfig, lastErrorString, min_def]
    rfl

/-- C3, witness for the amended theorem at two concrete collaborator
behaviours: an unknown venue, and a permanently missing path. -/
theorem C3_witness :
    execute_trade_with_retry
        (fun _ => AttemptOutcome.invalidIssuer "Issuer account not found: rXYZ") =
      { success := false, error := some "Issuer account not found: rXYZ",
        tx_hash := none, attemptsMade := 0, delays := [] } ∧
    execute_trade_with_retry (fun _ => AttemptOutcome.noPaths) =
      { success := false
        error := some "Max retry attempts reached. Last error: No valid payment paths found"
        tx_hash := none, attemptsMade := 3, delays := [1, 2, 4] } :=
  ⟨C3_no_path_is_retried.1
      (fun _ => AttemptOutcome.invalidIssuer "Issuer account not found: rXYZ")
      "Issuer account not found: rXYZ" rfl,
   C3_no_path_is_retried.2 (fun _ => AttemptOutcome.noPaths) (fun _ => rfl)⟩

/-! ## Claim C4: no at-most-one-in-flight discipline per fingerprint -/

/-- C4, evidence for the code bug.  The monitor loop runs
`execute_flash_loan_trade` on every decodable line of the opportunity
log on every pass and keeps no per-fingerprint in-flight record, so a
log carrying the same opportunity fingerprint twice (the same
opportunity logged twice, or simply re-read on the next 1-second pass)
reaches the flash-loan submission twice — the second detection is
executed, not ignored. -/
theorem C4_duplicate_fingerprint_executed_twice :
    submits_flash_loan flashLoanConfig true (1/10)
      { pair := "XRP/USD", base_currency := "XRP", quote_currency := "USD",
        buy_exchange := "Bitstamp", sell_exchange := "Gatehub",
        buy_rate := 1, sell_rate := 51/50, size := 500,
        profit := 10, profit_percentage := 2 } = true ∧
    monitor_pass flashLoanConfig true (1/10)
        [LogLine.opp { pair := "XRP/USD", base_currency := "XRP", quote_currency := "USD",
                       buy_exchange := "Bitstamp", sell_exchange := "Gatehub",
                       buy_rate := 1, sell_rate := 51/50, size := 500,
                       profit := 10, profit_percentage := 2 },
         LogLine.malformed "not json",
         LogLine.opp { pair := "XRP/USD", base_currency := "XRP", quote_currency := "USD",
                       buy_exchange := "Bitstamp", sell_exchange := "Gatehub",
                       buy_rate := 1, sell_rate := 51/50, size := 500,
                       profit := 10, profit_percentage := 2 }] =
      ["XRP/USD@Bitstamp/Gatehub", "XRP/USD@Bitstamp/Gatehub"] ∧
    List.count "XRP/USD@Bitstamp/Gatehub"
      ["XRP/USD@Bitstamp/Gatehub", "XRP/USD@Bitstamp/Gatehub"] = 2 := by
  refine ⟨?_, ?_, ?_⟩
  · norm_num [submits_flash_loan, flashLoanConfig]
  · norm_num [monitor_pass, submits_flash_loan, flashLoanConfig, fingerprint,
      List.filterMap_cons, List.filterMap_nil]
    rfl
  · decide

/-! ## Helper lemmas on the best-quote selection -/

/-- Python `min` over a non-empty list returns an element of it. -/
lemma pyMinBy_mem {α : Type} (key : α → ℚ) (x : α) (xs : List α) :
    pyMinBy key x xs ∈ x :: xs := by
  induction xs generalizing x with
  | nil => simp [pyMinBy]
  | cons y ys ih =>
    show List.foldl _ (if key y < key x then y else x) ys ∈ x :: y :: ys
    split_ifs
    · have h := ih y
      simp only [pyMinBy] at h
      simp only [List.mem_cons] at h ⊢
      tauto
    · have h := ih x
      simp only [pyMinBy] at h
      simp only [List.mem_cons] at h ⊢
      tauto

/-- Python `max` over a non-empty list returns an element of it. -/
lemma pyMaxBy_mem {α : Type} (key : α → ℚ) (x : α) (xs : List α) :
    pyMaxBy key x xs ∈ x :: xs := by
  induction xs generalizing x with
  | nil => simp [pyMaxBy]
  | cons y ys ih =>
    show List.foldl _ (if key y > key x then y else x) ys ∈ x :: y :: ys
    split_ifs
    · have h := ih y
      simp only [pyMaxBy] at h
      simp only [List.mem_cons] at h ⊢
      tauto
    · have h := ih x
      simp only [pyMaxBy] at h
      simp only [List.mem_cons] at h ⊢
      tauto

/-! ## Claim C5: direct-opportunity sizing -/

/-- C5, counterexample.  On the spec's own example quotes —
buy at rate 1.00 with size 500, sell at rate 1.02 with size 300 — the
detector emits size 500 (the buy quote's size; the sell quote's size is
never read) and profit 10.0, not the claimed size
`min(500, 300) = 300` and profit 6.0.  The profit percentage is 2%
either way. -/
theorem C5_counterexample :
    check_direct_arbitrage minProfitThreshold
        [{ issuer := "Bitstamp", rate := 1, optimal_size := 500 },
         { issuer := "Gatehub", rate := 51/50, optimal_size := 300 }] =
      some { buy_issuer := "Bitstamp", sell_issuer := "Gatehub",
             buy_rate := 1, sell_rate := 51/50, size := 500,
             profit := 10, profit_percentage := 2 } ∧
    (500 : ℚ) ≠ min 500 300 ∧ (10 : ℚ) ≠ 6 := by
  refine ⟨?_, by norm_num [min_def], by norm_num⟩
  norm_num [check_direct_arbitrage, pyMinBy, pyMaxBy, minProfitThreshold]

/-- C5, amended.  For two quotes on different venues with
`buy.rate < sell.rate`, any emitted direct opportunity is sized by the
BUY quote alone: `size = buyQuote.optimal_size` (the sell quote's size
is ignored, there is no `min`), `profit = (sellRate - buyRate) * size`,
and on the example quotes buy at 1.00 with size 500 and sell at 1.02
with size 300 this gives size 500, profit 10.0, profitPct 2.0%. -/
theorem C5_direct_sizing (threshold : ℚ) (bq sq : ExchangeRate) (o : DirectOpp)
    (hr : bq.rate < sq.rate)
    (h : check_direct_arbitrage threshold [bq, sq] = some o) :
    o.size = bq.optimal_size ∧
    o.profit = (sq.rate - bq.rate) * bq.optimal_size ∧
    o.buy_rate = bq.rate ∧ o.sell_rate = sq.rate := by
  simp only [check_direct_arbitrage, pyMinBy, pyMaxBy, List.foldl] at h
  rw [if_neg (not_lt.mpr hr.le), if_pos hr] at h
  split_ifs at h with hpct
  simp only [Option.some.injEq] at h
  subst h
  exact ⟨rfl, rfl, rfl, rfl⟩

/-- C5, witness for the amended theorem on the spec's example quotes. -/
theorem C5_witness :
    (1 : ℚ) < 51/50 ∧
    check_direct_arbitrage minProfitThreshold
        [{ issuer := "Bitstamp", rate := 1, optimal_size := 500 },
         { issuer := "Gatehub", rate := 51/50, optimal_size := 300 }] =
      some { buy_issuer := "Bitstamp", sell_issuer := "Gatehub",
             buy_rate := 1, sell_rate := 51/50, size := 500,
             profit := 10, profit_percentage := 2 } ∧
    ((500 : ℚ) = 500 ∧ (10 : ℚ) = (51/50 - 1) * 500 ∧ (1 : ℚ) = 1 ∧ (51/50 : ℚ) = 51/50) :=
  ⟨by norm_num,
   by norm_num [check_direct_arbitrage, pyMinBy, pyMaxBy, minProfitThreshold],
   C5_direct_sizing minProfitThreshold
     { issuer := "Bitstamp", rate := 1, optimal_size := 500 }
     { issuer := "Gatehub", rate := 51/50, optimal_size := 300 }
     { buy_issuer := "Bitstamp", sell_issuer := "Gatehub",
       buy_rate := 1, sell_rate := 51/50, size := 500,
       profit := 10, profit_percentage := 2 }
     (by norm_num)
     (by norm_num [check_direct_arbitrage, pyMinBy, pyMaxBy, minProfitThreshold])⟩

/-! ## Claim C9: direct profit percentage formula and no-spread emission -/

/-- C9.  For quotes with positive rates and sizes: any emitted direct
opportunity has `profitPct = (sellRate - buyRate) / buyRate * 100`
exactly (the size cancels out of the source's
`profit / (buy_rate * size) * 100`) and a strictly positive spread
`buyRate < sellRate`; and when the best sell rate does not exceed the
best buy rate, no opportunity is emitted (for any positive threshold). -/
theorem C9_direct_profit_formula (threshold : ℚ) (q1 q2 : ExchangeRate)
    (rest : List ExchangeRate) (hth : 0 < threshold)
    (hq : ∀ q ∈ q1 :: q2 :: rest, 0 < q.rate ∧ 0 < q.optimal_size) :
    (∀ o, check_direct_arbitrage threshold (q1 :: q2 :: rest) = some o →
      o.profit_percentage = (o.sell_rate - o.buy_rate) / o.buy_rate * 100 ∧
      o.buy_rate < o.sell_rate) ∧
    ((pyMaxBy ExchangeRate.rate q1 (q2 :: rest)).rate ≤
        (pyMinBy ExchangeRate.rate q1 (q2 :: rest)).rate →
      check_direct_arbitrage threshold (q1 :: q2 :: rest) = none) := by
  obtain ⟨hb1, hb2⟩ := hq _ (pyMinBy_mem ExchangeRate.rate q1 (q2 :: rest))
  obtain ⟨hs1, hs2⟩ := hq _ (pyMaxBy_mem ExchangeRate.rate q1 (q2 :: rest))
  have hcancel :
      ((pyMaxBy ExchangeRate.rate q1 (q2 :: rest)).rate -
          (pyMinBy ExchangeRate.rate q1 (q2 :: rest)).rate) *
          (pyMinBy ExchangeRate.rate q1 (q2 :: rest)).optimal_size /
          ((pyMinBy ExchangeRate.rate q1 (q2 :: rest)).rate *
            (pyMinBy ExchangeRate.rate q1 (q2 :: rest)).optimal_size) =
        ((pyMaxBy ExchangeRate.rate q1 (q2 :: rest)).rate -
            (pyMinBy ExchangeRate.rate q1 (q2 :: rest)).rate) /
          (pyMinBy ExchangeRate.rate q1 (q2 :: rest)).rate :=
    mul_div_mul_right _ _ (ne_of_gt hb2)
  constructor
  · intro o ho
    simp only [check_direct_arbitrage] at ho
    split_ifs at ho with hpct
    · simp only [Option.some.injEq] at ho
      subst ho
      refine ⟨by rw [hcancel], ?_⟩
      rw [hcancel] at hpct
      by_contra hle
      push_neg at hle
      have h0 : ((pyMaxBy ExchangeRate.rate q1 (q2 :: rest)).rate -
          (pyMinBy ExchangeRate.rate q1 (q2 :: rest)).rate) /
          (pyMinBy ExchangeRate.rate q1 (q2 :: rest)).rate ≤ 0 :=
        div_nonpos_iff.mpr (Or.inr ⟨by linarith, hb1.le⟩)
      nlinarith
  · intro hle
    simp only [check_direct_arbitrage]
    rw [if_neg]
    push_neg
    rw [hcancel]
    have h0 : ((pyMaxBy ExchangeRate.rate q1 (q2 :: rest)).rate -
        (pyMinBy ExchangeRate.rate q1 (q2 :: rest)).rate) /
        (pyMinBy ExchangeRate.rate q1 (q2 :: rest)).rate ≤ 0 :=
      div_nonpos_iff.mpr (Or.inr ⟨by linarith, hb1.le⟩)
    nlinarith

/-- C9, witness at a concrete quote set: rates 2 and 3 on two venues
with threshold 0.0008. -/
theorem C9_witness :
    (0 : ℚ) < minProfitThreshold ∧
    ((∀ o, check_direct_arbitrage minProfitThreshold
        [{ issuer := "Bitstamp", rate := 2, optimal_size := 50 },
         { issuer := "Gatehub", rate := 3, optimal_size := 70 }] = some o →
      o.profit_percentage = (o.sell_rate - o.buy_rate) / o.buy_rate * 100 ∧
      o.buy_rate < o.sell_rate) ∧
    ((pyMaxBy ExchangeRate.rate { issuer := "Bitstamp", rate := 2, optimal_size := 50 }
        [{ issuer := "Gatehub", rate := 3, optimal_size := 70 }]).rate ≤
        (pyMinBy ExchangeRate.rate { issuer := "Bitstamp", rate := 2, optimal_size := 50 }
          [{ issuer := "Gatehub", rate := 3, optimal_size := 70 }]).rate →
      check_direct_arbitrage minProfitThreshold
        [{ issuer := "Bitstamp", rate := 2, optimal_size := 50 },
         { issuer := "Gatehub", rate := 3, optimal_size := 70 }] = none)) :=
  ⟨by norm_num [minProfitThreshold],
   C9_direct_profit_formula minProfitThreshold
     { issuer := "Bitstamp", rate := 2, optimal_size := 50 }
     { issuer := "Gatehub", rate := 3, optimal_size := 70 } []
     (by norm_num [minProfitThreshold])
     (by intro q hq; fin_cases hq <;> norm_num)⟩

/-! ## Helper lemmas on the triangular simulation -/

/-- One leg keeps the running size positive: the slippage is capped by
`max_slippage < 1`, so the effective rate stays positive. -/
lemma apply_leg_pos (ms c : ℚ) (l : LegQuote) (hms1 : ms < 1)
    (hc : 0 < c) (hr : 0 < l.rate) : 0 < apply_leg ms c l := by
  unfold apply_leg
  have h1 : min ms (c / l.size * (1/1000)) ≤ ms := min_le_left _ _
  have h2 : 0 < 1 - min ms (c / l.size * (1/1000)) := by linarith
  exact mul_pos hc (mul_pos hr h2)

/-- With non-negative slippage, one leg yields at most the slippage-free
outcome of any at-least-as-large running size. -/
lemma apply_leg_le (ms c z : ℚ) (l : LegQuote) (hms0 : 0 ≤ ms)
    (hc : 0 < c) (hcz : c ≤ z) (hr : 0 < l.rate) (hsz : 0 < l.size) :
    apply_leg ms c l ≤ z * l.rate := by
  unfold apply_leg
  have hx : 0 ≤ c / l.size * (1/1000) := by positivity
  have hs0 : 0 ≤ min ms (c / l.size * (1/1000)) := le_min hms0 hx
  have h1 : l.rate * (1 - min ms (c / l.size * (1/1000))) ≤ l.rate := by nlinarith
  calc c * (l.rate * (1 - min ms (c / l.size * (1/1000))))
      ≤ c * l.rate := mul_le_mul_of_nonneg_left h1 hc.le
    _ ≤ z * l.rate := mul_le_mul_of_nonneg_right hcz hr.le

/-- With `max_slippage = 0` the slippage of a leg vanishes and the leg
is the plain rate multiplication. -/
lemma apply_leg_zero (z : ℚ) (l : LegQuote) (hz : 0 < z) (hsz : 0 < l.size) :
    apply_leg 0 z l = z * l.rate := by
  unfold apply_leg
  have hx : 0 ≤ z / l.size * (1/1000) := by positivity
  rw [min_eq_left hx]
  ring

/-- With strictly positive `max_slippage` (and positive running size,
rate and quote size) one leg yields strictly less than the slippage-free
outcome of any at-least-as-large running size. -/
lemma apply_leg_lt (ms c z : ℚ) (l : LegQuote) (hms0 : 0 < ms)
    (hc : 0 < c) (hcz : c ≤ z) (hr : 0 < l.rate) (hsz : 0 < l.size) :
    apply_leg ms c l < z * l.rate := by
  unfold apply_leg
  have hx : 0 < c / l.size * (1/1000) := by positivity
  have hs0 : 0 < min ms (c / l.size * (1/1000)) := lt_min hms0 hx
  have h1 : l.rate * (1 - min ms (c / l.size * (1/1000))) < l.rate := by nlinarith
  calc c * (l.rate * (1 - min ms (c / l.size * (1/1000))))
      < c * l.rate := mul_lt_mul_of_pos_left h1 hc
    _ ≤ z * l.rate := mul_le_mul_of_nonneg_right hcz hr.le

/-- The simulation preserves a strict gap against the slippage-free run:
if the slipped running size is already strictly below the slippage-free
one, it stays strictly below through any remaining legs. -/
lemma simulate_cycle_lt_of_lt (ms : ℚ) (hms0 : 0 ≤ ms) (hms1 : ms < 1) :
    ∀ (legs : List LegQuote) (c z : ℚ), 0 < c → c < z →
      (∀ l ∈ legs, 0 < l.rate ∧ 0 < l.size) →
      simulate_cycle ms c legs < simulate_cycle 0 z legs := by
  intro legs
  induction legs with
  | nil => intro c z hc hcz _; simpa [simulate_cycle] using hcz
  | cons l ls ih =>
    intro c z hc hcz h
    obtain ⟨hr, hsz⟩ := h l (List.mem_cons_self l ls)
    have hz : 0 < z := lt_trans hc hcz
    have hrec : ∀ x ∈ ls, 0 < x.rate ∧ 0 < x.size :=
      fun x hx => h x (List.mem_cons_of_mem l hx)
    show simulate_cycle ms (apply_leg ms c l) ls < simulate_cycle 0 (apply_leg 0 z l) ls
    rw [apply_leg_zero z l hz hsz]
    exact ih (apply_leg ms c l) (z * l.rate)
      (apply_leg_pos ms c l hms1 hc hr)
      (lt_of_le_of_lt (apply_leg_le ms c c l hms0 hc le_rfl hr hsz)
        (by exact mul_lt_mul_of_pos_right hcz hr))
      hrec

/-! ## Claim C8: triangular slippage-decay simulation -/

/-- C8.  The triangular detector folds over the legs in order with
`slippage = min(max_slippage, current / legQuote.size * 0.001)`,
`effectiveRate = rate * (1 - slippage)` and
`current := current * effectiveRate`, and reports
`profit = finalSize - startSize`, `profitPct = profit / startSize * 100`
on `startSize = 1000`.  With zero slippage the 3-leg cycle with rates
`[2.0, 0.5, 1.01]` yields exactly `finalSize = 1010`, `profit = 10`,
`profitPct = 1%` (emitted, since 1% exceeds the 0.15% threshold), and
any non-zero slippage cap strictly reduces the final size. -/
theorem C8_triangular_slippage_model :
    check_triangular_cycle minTriangularProfit 0
        [{ rate := 2, size := 2000 }, { rate := 1/2, size := 2000 },
         { rate := 101/100, size := 2000 }] =
      some { initial_size := 1000, final_size := 1010,
             profit := 10, profit_percentage := 1 } ∧
    (∀ (th ms : ℚ) (legs : List LegQuote) (o : TriOpp),
      check_triangular_cycle th ms legs = some o →
      o.initial_size = 1000 ∧ o.final_size = simulate_cycle ms 1000 legs ∧
      o.profit = o.final_size - o.initial_size ∧
      o.profit_percentage = o.profit / o.initial_size * 100) ∧
    (∀ (ms start : ℚ) (legs : List LegQuote), 0 < ms → ms < 1 → 0 < start →
      legs ≠ [] → (∀ l ∈ legs, 0 < l.rate ∧ 0 < l.size) →
      simulate_cycle ms start legs < simulate_cycle 0 start legs) := by
  refine ⟨?_, ?_, ?_⟩
  · norm_num [check_triangular_cycle, simulate_cycle, apply_leg,
      minTriangularProfit, min_def]
  · intro th ms legs o h
    simp only [check_triangular_cycle] at h
    split_ifs at h
    simp only [Option.some.injEq] at h
    subst h
    exact ⟨rfl, rfl, rfl, rfl⟩
  · intro ms start legs hms0 hms1 hstart hne h
    match legs, hne with
    | l :: ls, _ =>
      obtain ⟨hr, hsz⟩ := h l (List.mem_cons_self l ls)
      have hrec : ∀ x ∈ ls, 0 < x.rate ∧ 0 < x.size :=
        fun x hx => h x (List.mem_cons_of_mem l hx)
      show simulate_cycle ms (apply_leg ms start l) ls <
        simulate_cycle 0 (apply_leg 0 start l) ls
      rw [apply_leg_zero start l hstart hsz]
      rcases ls with _ | ⟨l2, ls2⟩
      · simpa [simulate_cycle] using
          apply_leg_lt ms start start l hms0 hstart le_rfl hr hsz
      · exact simulate_cycle_lt_of_lt ms hms0.le hms1 (l2 :: ls2)
          (apply_leg ms start l) (start * l.rate)
          (apply_leg_pos ms start l hms1 hstart hr)
          (apply_leg_lt ms start start l hms0 hstart le_rfl hr hsz)
          hrec

/-- C8, witness for the universally quantified parts: the reporting
shape at the emitted example opportunity, and the strict slippage loss
at `max_slippage = 0.005` on the example cycle. -/
theorem C8_witness :
    ({ initial_size := 1000, final_size := 1010,
       profit := 10, profit_percentage := (1:ℚ) } : TriOpp).initial_size = 1000 ∧
    (0 : ℚ) < 1/200 ∧ (1/200 : ℚ) < 1 ∧ (0 : ℚ) < 1000 ∧
    simulate_cycle (1/200) 1000
        [{ rate := 2, size := 2000 }, { rate := 1/2, size := 2000 },
         { rate := 101/100, size := 2000 }] <
      simulate_cycle 0 1000
        [{ rate := 2, size := 2000 }, { rate := 1/2, size := 2000 },
         { rate := 101/100, size := 2000 }] :=
  ⟨(C8_triangular_slippage_model.2.1 minTriangularProfit 0
      [{ rate := 2, size := 2000 }, { rate := 1/2, size := 2000 },
       { rate := 101/100, size := 2000 }]
      { initial_size := 1000, final_size := 1010, profit := 10, profit_percentage := 1 }
      (by norm_num [check_triangular_cycle, simulate_cycle, apply_leg,
        minTriangularProfit, min_def])).1,
   by norm_num, by norm_num, by norm_num,
   C8_triangular_slippage_model.2.2 (1/200) 1000
     [{ rate := 2, size := 2000 }, { rate := 1/2, size := 2000 },
      { rate := 101/100, size := 2000 }]
     (by norm_num) (by norm_num) (by norm_num) (by simp)
     (by intro l hl; fin_cases hl <;> norm_num)⟩

end ThothOracle
